import Mathlib

/-!
Verification of the SN-chat-be trade lifecycle, review engine, chat and
presence subsystems, shallowly embedded from the JavaScript source.
Ids (Mongo ObjectIds) are modelled as `String`, matching the pervasive
`toString()` comparisons in the source; the document stores are modelled
as lists of records; a thrown `ApiError` is an `Except.error` value.
-/

namespace SNChat

section

attribute [local semireducible] Rat.add Rat.mul Rat.inv Rat.sub

instance {ε α : Type} [DecidableEq ε] [DecidableEq α] : DecidableEq (Except ε α) :=
  fun a b =>
    match a, b with
    | .ok x, .ok y =>
      if h : x = y then .isTrue (by rw [h]) else .isFalse (fun hh => h (Except.ok.inj hh))
    | .error e, .error f =>
      if h : e = f then .isTrue (by rw [h]) else .isFalse (fun hh => h (Except.error.inj hh))
    | .ok _, .error _ => .isFalse (fun hh => Except.noConfusion hh)
    | .error _, .ok _ => .isFalse (fun hh => Except.noConfusion hh)

/-- An `ApiError(statusCode, message)` thrown by a controller. -/
structure ApiError where
  statusCode : Nat
  message : String
deriving DecidableEq

/-- A call to `sendNotificationToUser(target, event, ...)` recorded as a
best-effort side effect (the payload is not modelled). -/
structure Notif where
  target : String
  event : String
deriving DecidableEq

/-- A `TradeRequest` document (data model of `tradeRequest.model`). -/
structure Trade where
  id : String
  sender : String
  receiver : String
  senderOfferedSkill : String
  receiverOfferedSkill : String
  status : String
  completedBy : List String
  message : String
deriving DecidableEq

def NOTIF_TRADE_REQUEST_RECEIVED : String := "notification:trade_request_received"

def NOTIF_TRADE_REQUEST_ACCEPTED : String := "notification:trade_request_accepted"

def NOTIF_TRADE_REQUEST_REJECTED : String := "notification:trade_request_rejected"

def NOTIF_TRADE_REQUEST_COMPLETED : String := "notification:trade_request_completed"

def NOTIF_TRADE_MARKED_COMPLETE : String := "notification:trade_marked_complete"

def NOTIF_REVIEW_RECEIVED : String := "notification:review_received"

/-- `updateTradeStatus` from `src/modules/tradeSkills/controller.js`, acting on a
trade already fetched by id (the 404 branch is handled by the store-level
callers).  Returns the saved trade together with the notifications sent.
The three status branches of the source are mutually exclusive since `status`
is a single string, so they are written as an if/else chain. -/
def updateTradeStatus (trade : Trade) (userId status : String) :
    Except ApiError (Trade × List Notif) :=
  if ¬ (userId = trade.sender ∨ userId = trade.receiver) then
    .error ⟨403, "Not authorized"⟩
  else if ¬ (status = "accepted" ∨ status = "rejected" ∨ status = "completed") then
    .error ⟨400, "Invalid status"⟩
  else
    let senderId := trade.sender
    let receiverId := trade.receiver
    let notifyUserId := if userId = senderId then receiverId else senderId
    if status = "accepted" then
      .ok ({ trade with status := "accepted" },
        [⟨senderId, NOTIF_TRADE_REQUEST_ACCEPTED⟩])
    else if status = "rejected" then
      .ok ({ trade with status := "rejected" },
        [⟨senderId, NOTIF_TRADE_REQUEST_REJECTED⟩])
    else
      let cb := if userId ∈ trade.completedBy then trade.completedBy
                else trade.completedBy ++ [userId]
      if cb.length = 2 ∧ senderId ∈ cb ∧ receiverId ∈ cb then
        .ok ({ trade with completedBy := cb, status := "completed" },
          [⟨senderId, NOTIF_TRADE_REQUEST_COMPLETED⟩,
           ⟨receiverId, NOTIF_TRADE_REQUEST_COMPLETED⟩])
      else
        .ok ({ trade with completedBy := cb },
          [⟨notifyUserId, NOTIF_TRADE_MARKED_COMPLETE⟩])

/-- Modelled from the spec: the `tradeRequest.model.js` schema file is not under
`src/`; per the spec a newly persisted `TradeRequest` has the schema defaults
`status = "pending"` and `completedBy = {}` (empty). -/
def newTrade (newId senderId receiverId sSkillId rSkillId msg : String) : Trade :=
  ⟨newId, senderId, receiverId, sSkillId, rSkillId, "pending", [], msg⟩

/-- Whether a stored trade matches the duplicate-suppression `findOne` filter of
`createTradeRequest`: exact (sender, receiver, senderSkill, receiverSkill)
tuple with status `pending`. -/
def pendingDupFilter (senderId receiverId sSkillId rSkillId : String) (t : Trade) : Bool :=
  t.sender == senderId && t.receiver == receiverId &&
  t.senderOfferedSkill == sSkillId && t.receiverOfferedSkill == rSkillId &&
  t.status == "pending"

/-- `createTradeRequest` from `src/modules/tradeSkills/controller.js` over a
trade store.  Returns the result together with the (possibly extended) store;
on an error the store is returned unchanged (nothing was persisted).
`newId` stands for the database-generated id of the created document. -/
def createTradeRequest (store : List Trade)
    (senderId receiverId sSkillId rSkillId msg newId : String) :
    Except ApiError Trade × List Trade :=
  if receiverId = "" ∨ sSkillId = "" ∨ rSkillId = "" then
    (.error ⟨400, "Missing required fields"⟩, store)
  else if receiverId = senderId then
    (.error ⟨400, "You cannot trade with yourself"⟩, store)
  else
    match store.find? (pendingDupFilter senderId receiverId sSkillId rSkillId) with
    | some _ => (.error ⟨400, "A pending trade already exists"⟩, store)
    | none =>
      let trade := newTrade newId senderId receiverId sSkillId rSkillId msg
      (.ok trade, store ++ [trade])

/-- A `Review` document (data model of `src/models/review.model.js`). -/
structure Review where
  tradeRequest : String
  reviewer : String
  reviewee : String
  rating : ℚ
  review : String
  skillReviewed : String
deriving DecidableEq

/-- The external per-user skill profile record: only its `userId` key and the
numeric `rating` field written by `updateUserRating` are modelled. -/
structure SkillProfile where
  userId : String
  rating : ℚ
deriving DecidableEq

/-- The stores visible to the review engine. -/
structure ReviewSt where
  trades : List Trade
  reviews : List Review
  profiles : List SkillProfile
deriving DecidableEq

/-- JS `String.prototype.trim()`: drop leading and trailing whitespace.
Embedded on the character list (core `String.trim` is byte-position based and
does not reduce in the kernel). -/
def jsTrim (s : String) : String :=
  ⟨((s.data.dropWhile Char.isWhitespace).reverse.dropWhile Char.isWhitespace).reverse⟩

/-- `Math.round(x * 10) / 10`: round to one decimal place (JS `Math.round`
rounds half up, i.e. `⌊x + 1/2⌋`, which is Mathlib `round`). -/
def roundTenth (q : ℚ) : ℚ := (round (q * 10) : ℤ) / 10

/-- `findOneAndUpdate({userId}, {rating}, {upsert: false})`: set the rating of
the first profile whose `userId` matches; a no-op when none matches. -/
def setProfileRating : List SkillProfile → String → ℚ → List SkillProfile
  | [], _, _ => []
  | p :: ps, uid, r =>
    if p.userId = uid then { p with rating := r } :: ps
    else p :: setProfileRating ps uid r

/-- A BSON value as compared inside an aggregation pipeline: `$match`
equality is type-sensitive, so an ObjectId never equals a plain string.
Stored id fields are ObjectIds carrying their hex string; queries
(`find`/`findOne`/`findById`/`updateMany`) cast their filter values, so
everywhere else in this development hex-to-hex string equality is the
faithful model. -/
inductive BsonValue where
  | objectId (hex : String)
  | str (s : String)
deriving DecidableEq

/-- The `$match: { reviewee: userId }` stage of the `updateUserRating`
aggregation.  The stored `reviewee` is an ObjectId (cast by
`ReviewModel.create`), but `userId` here is the raw request-body string and
Mongoose does not cast aggregation pipelines (contrast the explicit
`new mongoose.Types.ObjectId(...)` in the unread-messages aggregate of
`socket.service.js`), so the comparison is ObjectId-versus-string and
matches no document. -/
def aggMatchReviewee (rv : Review) (uid : String) : Bool :=
  BsonValue.objectId rv.reviewee == BsonValue.str uid

/-- The ratings of the reviews matched by the `$match`/`$group` aggregation
of `updateUserRating` — none, by `aggMatchReviewee`. -/
def revieweeRatings (reviews : List Review) (uid : String) : List ℚ :=
  (reviews.filter (fun rv => aggMatchReviewee rv uid)).map (·.rating)

/-- `$avg` over the matched ratings, with `ratingStats[0]?.averageRating || 0`
yielding `0` when the pipeline matched nothing. -/
def averageRatingOf (reviews : List Review) (uid : String) : ℚ :=
  let rs := revieweeRatings reviews uid
  if rs.length = 0 then 0 else rs.sum / rs.length

/-- `updateUserRating` from the tradeSkills controller: run the aggregation,
round the resulting average to one decimal place, and write it into the
skill profile record (no upsert).  Because the uncast `$match` never matches,
the average is always the `|| 0` default and the written rating is always
`0`. -/
def updateUserRating (reviews : List Review) (profiles : List SkillProfile)
    (uid : String) : List SkillProfile :=
  setProfileRating profiles uid (roundTenth (averageRatingOf reviews uid))

/-- The duplicate-review `findOne` filter of `submitReview`: exact
(`tradeRequest`, `reviewer`, `reviewee`) triple. -/
def reviewTripleFilter (tradeId reviewerId revieweeId : String) (rv : Review) : Bool :=
  rv.tradeRequest == tradeId && rv.reviewer == reviewerId && rv.reviewee == revieweeId

/-- `submitReview` from the tradeSkills controller.  `ratingUpdateThrows`
models an exception inside `updateUserRating`, whose body is wrapped in a
try/catch that logs and swallows the failure (the profile write then simply
does not happen).  Returns the updated stores and the created review; on an
error nothing is persisted. -/
def submitReview (st : ReviewSt) (tradeId reviewerId revieweeId : String)
    (rating : ℚ) (review : String) (ratingUpdateThrows : Bool) :
    Except ApiError (ReviewSt × Review) :=
  if rating = 0 ∨ review = "" ∨ revieweeId = "" then
    .error ⟨400, "Rating, review text, and reviewee ID are required"⟩
  else if rating < 1 ∨ rating > 5 then
    .error ⟨400, "Rating must be between 1 and 5"⟩
  else if (jsTrim review).length = 0 ∨ review.length > 500 then
    .error ⟨400, "Review must be between 1 and 500 characters"⟩
  else
    match st.trades.find? (fun t => t.id == tradeId) with
    | none => .error ⟨404, "Trade request not found"⟩
    | some trade =>
      if trade.status ≠ "completed" then
        .error ⟨400, "You can only review completed trades"⟩
      else
        let isSender := trade.sender == reviewerId
        let isReceiver := trade.receiver == reviewerId
        if !isSender && !isReceiver then
          .error ⟨403, "You are not authorized to review this trade"⟩
        else
          let isRevieweeValid := (isSender && trade.receiver == revieweeId) ||
                                 (isReceiver && trade.sender == revieweeId)
          if !isRevieweeValid then
            .error ⟨400, "You can only review the other party in this trade"⟩
          else
            let skillReviewed :=
              if isSender then trade.receiverOfferedSkill else trade.senderOfferedSkill
            match st.reviews.find? (reviewTripleFilter tradeId reviewerId revieweeId) with
            | some _ => .error ⟨400, "You have already reviewed this trade"⟩
            | none =>
              let newReview : Review :=
                ⟨tradeId, reviewerId, revieweeId, rating, jsTrim review, skillReviewed⟩
              let reviews1 := st.reviews ++ [newReview]
              let profiles1 :=
                if ratingUpdateThrows then st.profiles
                else updateUserRating reviews1 st.profiles revieweeId
              .ok ({ st with reviews := reviews1, profiles := profiles1 }, newReview)

/-- The stored rating of the first profile record for `uid`, if any. -/
def profileRatingOf (profiles : List SkillProfile) (uid : String) : Option ℚ :=
  (profiles.find? (fun p => p.userId == uid)).map (·.rating)

set_option maxRecDepth 40000

/-- A review text of 501 characters whose trimmed length is 500: one leading
space followed by 500 letters. -/
def longText : String := String.mk (' ' :: List.replicate 500 'a')

/-- A `Message` document (data model of `chat.model.js`): `read` defaults to
`false` on creation. -/
structure Message where
  id : String
  sender : String
  receiver : String
  tradeId : String
  message : String
  read : Bool
  createdAt : Nat
deriving DecidableEq

/-- `getChatHistory` from `src/modules/chat/chat.controller.js`: return all
messages of the trade sorted by `createdAt` ascending (oldest first), then
`updateMany({tradeId, receiver: userId, read: false}, {read: true})`.
Returns the response list (materialised before the update, so it shows the
pre-update `read` flags) together with the updated store. -/
def getChatHistory (store : List Message) (tradeId userId : String) :
    List Message × List Message :=
  let messages := (store.filter (fun m => m.tradeId == tradeId)).mergeSort
    (fun a b => decide (a.createdAt ≤ b.createdAt))
  let store2 := store.map (fun m =>
    if m.tradeId == tradeId && m.receiver == userId && m.read == false then
      { m with read := true }
    else m)
  (messages, store2)

/-- The in-memory presence registry `userSockets` (a JS `Map` from user-id
string to socket id), modelled as a function. -/
def Registry : Type := String → Option String

/-- `userSockets.set(uid, sid)`. -/
def regSet (reg : Registry) (uid sid : String) : Registry :=
  fun x => if x = uid then some sid else reg x

/-- `userSockets.delete(uid)`. -/
def regDelete (reg : Registry) (uid : String) : Registry :=
  fun x => if x = uid then none else reg x

/-- `getUserSocketId` from `socket.service.js`. -/
def getUserSocketId (reg : Registry) (uid : String) : Option String := reg uid

/-- A socket connection: its id and the `socket.userId` field assigned on
`user:join`. -/
structure Conn where
  id : String
  userId : Option String
deriving DecidableEq

/-- The `user:join` handler: with a truthy userId, store the mapping
(last-writer-wins overwrite) and set `socket.userId` (the unread-messages
push is a read-only side effect, not modelled). -/
def userJoin (reg : Registry) (c : Conn) (uid : String) : Registry × Conn :=
  if uid = "" then (reg, c)
  else (regSet reg uid c.id, { c with userId := some uid })

/-- The `disconnect` handler: if the socket has a stored userId, delete the
registry entry under that key — without checking that the entry still points
at this socket. -/
def onDisconnect (reg : Registry) (c : Conn) : Registry :=
  match c.userId with
  | some uid => regDelete reg uid
  | none => reg

/-- `sendNotificationToUser`: delivered iff the user is in the registry and
`io` is initialised; the notification is logged either way and never queued. -/
def sendNotificationToUser (reg : Registry) (ioReady : Bool) (uid : String) : Bool :=
  (getUserSocketId reg uid).isSome && ioReady

/-- An event emitted on a socket (payloads are not modelled). -/
structure EmitEvt where
  socketId : String
  event : String
deriving DecidableEq

/-- The `chat:send` handler from `socket.service.js`: validate fields, persist
the message (`read = false` by schema default) first, then emit
`chat:receive` to the receiver socket when present and always echo
`chat:sent` to the sender.  `newId`/`now` stand for the database-generated id
and timestamp.  The `MessageModel.create` failure path (empty trimmed text
fails the schema `required` validator) lands in the catch branch emitting
`chat:error`. -/
def chatSend (reg : Registry) (store : List Message) (c : Conn)
    (receiverId msgText tradeId newId : String) (now : Nat) :
    List Message × List EmitEvt :=
  match c.userId with
  | none => (store, [⟨c.id, "chat:error"⟩])
  | some senderId =>
    if senderId = "" ∨ receiverId = "" ∨ msgText = "" ∨ tradeId = "" then
      (store, [⟨c.id, "chat:error"⟩])
    else if jsTrim msgText = "" then
      (store, [⟨c.id, "chat:error"⟩])
    else
      let savedMessage : Message :=
        ⟨newId, senderId, receiverId, tradeId, jsTrim msgText, false, now⟩
      let store1 := store ++ [savedMessage]
      match getUserSocketId reg receiverId with
      | some rsid => (store1, [⟨rsid, "chat:receive"⟩, ⟨c.id, "chat:sent"⟩])
      | none => (store1, [⟨c.id, "chat:sent"⟩])

/-- C1: from a fresh trade (empty `completedBy`, distinct participants), a
`completed` call by one participant leaves `status` at its pre-complete value
and makes `completedBy` exactly that participant; a repeat call by the same
participant is a no-op on the size of `completedBy`; the call by the other
participant (either participant may go first, via the symmetric hypothesis)
then sets `status` to `completed`, exactly once, and notifies both parties. -/
theorem trade_dual_confirmation (t : Trade) (p q : String)
    (hne : t.sender ≠ t.receiver) (hcb : t.completedBy = [])
    (hpq : (p = t.sender ∧ q = t.receiver) ∨ (p = t.receiver ∧ q = t.sender)) :
    ∃ t1 n1, updateTradeStatus t p "completed" = .ok (t1, n1) ∧
      t1.status = t.status ∧ t1.completedBy = [p] ∧
      (∃ t1b n1b, updateTradeStatus t1 p "completed" = .ok (t1b, n1b) ∧
        t1b.completedBy.length = t1.completedBy.length ∧ t1b.status = t1.status) ∧
      (∃ t2 n2, updateTradeStatus t1 q "completed" = .ok (t2, n2) ∧
        t2.status = "completed" ∧ t2.completedBy = [p, q] ∧
        n2 = [⟨t.sender, NOTIF_TRADE_REQUEST_COMPLETED⟩,
              ⟨t.receiver, NOTIF_TRADE_REQUEST_COMPLETED⟩]) := by
  rcases hpq with ⟨hp, hq⟩ | ⟨hp, hq⟩ <;> subst hp <;> subst hq
  · refine ⟨{ t with completedBy := [t.sender] },
      [⟨t.receiver, NOTIF_TRADE_MARKED_COMPLETE⟩], ?_, rfl, rfl, ?_, ?_⟩
    · simp [updateTradeStatus, hcb]
    · exact ⟨{ t with completedBy := [t.sender] },
        [⟨t.receiver, NOTIF_TRADE_MARKED_COMPLETE⟩], by simp [updateTradeStatus], rfl, rfl⟩
    · refine ⟨{ t with completedBy := [t.sender, t.receiver], status := "completed" },
        [⟨t.sender, NOTIF_TRADE_REQUEST_COMPLETED⟩,
         ⟨t.receiver, NOTIF_TRADE_REQUEST_COMPLETED⟩], ?_, rfl, rfl, rfl⟩
      simp [updateTradeStatus, hne, Ne.symm hne]
  · refine ⟨{ t with completedBy := [t.receiver] },
      [⟨t.sender, NOTIF_TRADE_MARKED_COMPLETE⟩], ?_, rfl, rfl, ?_, ?_⟩
    · simp [updateTradeStatus, hcb, Ne.symm hne]
    · exact ⟨{ t with completedBy := [t.receiver] },
        [⟨t.sender, NOTIF_TRADE_MARKED_COMPLETE⟩],
        by simp [updateTradeStatus, Ne.symm hne], rfl, rfl⟩
    · refine ⟨{ t with completedBy := [t.receiver, t.sender], status := "completed" },
        [⟨t.sender, NOTIF_TRADE_REQUEST_COMPLETED⟩,
         ⟨t.receiver, NOTIF_TRADE_REQUEST_COMPLETED⟩], ?_, rfl, rfl, rfl⟩
      simp [updateTradeStatus, hne, Ne.symm hne]

/-- Witness for C1 at a concrete pending trade between "A" and "B". -/
theorem trade_dual_confirmation_witness :
    ("A" : String) ≠ "B" ∧
    (∃ t1 n1,
      updateTradeStatus ⟨"t1", "A", "B", "s1", "s2", "pending", [], ""⟩ "A" "completed" =
        .ok (t1, n1) ∧
      t1.status = Trade.status ⟨"t1", "A", "B", "s1", "s2", "pending", [], ""⟩ ∧
      t1.completedBy = ["A"] ∧
      (∃ t1b n1b, updateTradeStatus t1 "A" "completed" = .ok (t1b, n1b) ∧
        t1b.completedBy.length = t1.completedBy.length ∧ t1b.status = t1.status) ∧
      (∃ t2 n2, updateTradeStatus t1 "B" "completed" = .ok (t2, n2) ∧
        t2.status = "completed" ∧ t2.completedBy = ["A", "B"] ∧
        n2 = [⟨"A", NOTIF_TRADE_REQUEST_COMPLETED⟩,
              ⟨"B", NOTIF_TRADE_REQUEST_COMPLETED⟩])) :=
  ⟨by decide,
    trade_dual_confirmation ⟨"t1", "A", "B", "s1", "s2", "pending", [], ""⟩ "A" "B"
      (by decide) rfl (Or.inl ⟨rfl, rfl⟩)⟩

/-- C2 counterexample: a reachable call sequence moves a trade out of the
`completed` status.  Starting from a fresh pending trade between "A" and "B",
both parties mark it complete (status becomes `completed`), after which a
plain `accepted` call by "A" succeeds and resets the status to `accepted` —
`updateTradeStatus` never consults the current status before applying an
`accepted`/`rejected` transition. -/
theorem trade_status_escape_cex :
    updateTradeStatus ⟨"t1", "A", "B", "s1", "s2", "pending", [], ""⟩ "A" "completed" =
      .ok (⟨"t1", "A", "B", "s1", "s2", "pending", ["A"], ""⟩,
        [⟨"B", NOTIF_TRADE_MARKED_COMPLETE⟩]) ∧
    updateTradeStatus ⟨"t1", "A", "B", "s1", "s2", "pending", ["A"], ""⟩ "B" "completed" =
      .ok (⟨"t1", "A", "B", "s1", "s2", "completed", ["A", "B"], ""⟩,
        [⟨"A", NOTIF_TRADE_REQUEST_COMPLETED⟩, ⟨"B", NOTIF_TRADE_REQUEST_COMPLETED⟩]) ∧
    updateTradeStatus ⟨"t1", "A", "B", "s1", "s2", "completed", ["A", "B"], ""⟩ "A" "accepted" =
      .ok (⟨"t1", "A", "B", "s1", "s2", "accepted", ["A", "B"], ""⟩,
        [⟨"A", NOTIF_TRADE_REQUEST_ACCEPTED⟩]) := by
  refine ⟨by decide, by decide, by decide⟩

/-- C2 amended: on every successful `updateTradeStatus` call, `completedBy`
only grows (the old list is a prefix of the new one) and a transition into
`completed` happens only when `completedBy` contains both sender and receiver;
however the `accepted`/`rejected` transitions are unguarded by the current
status, so they can move a trade out of any state, including `completed` and
`rejected`. -/
theorem trade_status_invariants (t : Trade) (u s : String) (t' : Trade) (ns : List Notif)
    (h : updateTradeStatus t u s = .ok (t', ns)) :
    t.completedBy <+: t'.completedBy ∧
    (t'.status = "completed" → t.status = "completed" ∨
       (t.sender ∈ t'.completedBy ∧ t.receiver ∈ t'.completedBy)) ∧
    (s = "accepted" → t'.status = "accepted") ∧
    (s = "rejected" → t'.status = "rejected") ∧
    (s = "completed" → t'.status = t.status ∨ t'.status = "completed") := by
  simp only [updateTradeStatus] at h
  by_cases h1 : u = t.sender ∨ u = t.receiver
  · rw [if_neg (not_not_intro h1)] at h
    by_cases h3 : s = "accepted"
    · subst h3
      rw [if_neg (by simp), if_pos rfl] at h
      obtain ⟨ht, hn⟩ := Prod.mk.inj (Except.ok.inj h)
      subst ht
      exact ⟨List.prefix_refl _, fun hc => absurd hc (by simp), fun _ => rfl,
        fun hs => absurd hs (by simp), fun hs => absurd hs (by simp)⟩
    · by_cases h4 : s = "rejected"
      · subst h4
        rw [if_neg (by simp), if_neg (by simp), if_pos rfl] at h
        obtain ⟨ht, hn⟩ := Prod.mk.inj (Except.ok.inj h)
        subst ht
        exact ⟨List.prefix_refl _, fun hc => absurd hc (by simp),
          fun hs => absurd hs (by simp), fun _ => rfl, fun hs => absurd hs (by simp)⟩
      · by_cases h5 : s = "completed"
        · subst h5
          rw [if_neg (by simp), if_neg (by simp), if_neg (by simp)] at h
          by_cases hm : u ∈ t.completedBy
          · rw [if_pos hm] at h
            by_cases hg : t.completedBy.length = 2 ∧
                t.sender ∈ t.completedBy ∧ t.receiver ∈ t.completedBy
            · rw [if_pos hg] at h
              obtain ⟨ht, hn⟩ := Prod.mk.inj (Except.ok.inj h)
              subst ht
              exact ⟨List.prefix_refl _, fun _ => Or.inr ⟨hg.2.1, hg.2.2⟩,
                fun hs => absurd hs (by simp), fun hs => absurd hs (by simp),
                fun _ => Or.inr rfl⟩
            · rw [if_neg hg] at h
              obtain ⟨ht, hn⟩ := Prod.mk.inj (Except.ok.inj h)
              subst ht
              exact ⟨List.prefix_refl _, fun hc => Or.inl hc,
                fun hs => absurd hs (by simp), fun hs => absurd hs (by simp),
                fun _ => Or.inl rfl⟩
          · rw [if_neg hm] at h
            by_cases hg : (t.completedBy ++ [u]).length = 2 ∧
                t.sender ∈ t.completedBy ++ [u] ∧ t.receiver ∈ t.completedBy ++ [u]
            · rw [if_pos hg] at h
              obtain ⟨ht, hn⟩ := Prod.mk.inj (Except.ok.inj h)
              subst ht
              exact ⟨List.prefix_append _ _, fun _ => Or.inr ⟨hg.2.1, hg.2.2⟩,
                fun hs => absurd hs (by simp), fun hs => absurd hs (by simp),
                fun _ => Or.inr rfl⟩
            · rw [if_neg hg] at h
              obtain ⟨ht, hn⟩ := Prod.mk.inj (Except.ok.inj h)
              subst ht
              exact ⟨List.prefix_append _ _, fun hc => Or.inl hc,
                fun hs => absurd hs (by simp), fun hs => absurd hs (by simp),
                fun _ => Or.inl rfl⟩
        · rw [if_pos (by simp [h3, h4, h5])] at h
          exact absurd h (by simp)
  · rw [if_pos h1] at h
    exact absurd h (by simp)

/-- Witness for the amended C2 theorem, at the concrete call that marks a
fresh trade complete by its sender. -/
theorem trade_status_invariants_witness :
    Trade.completedBy ⟨"t1", "A", "B", "s1", "s2", "pending", [], ""⟩ <+:
      Trade.completedBy ⟨"t1", "A", "B", "s1", "s2", "pending", ["A"], ""⟩ ∧
    (Trade.status ⟨"t1", "A", "B", "s1", "s2", "pending", ["A"], ""⟩ = "completed" →
      Trade.status ⟨"t1", "A", "B", "s1", "s2", "pending", [], ""⟩ = "completed" ∨
        ("A" ∈ Trade.completedBy ⟨"t1", "A", "B", "s1", "s2", "pending", ["A"], ""⟩ ∧
         "B" ∈ Trade.completedBy ⟨"t1", "A", "B", "s1", "s2", "pending", ["A"], ""⟩)) ∧
    (("completed" : String) = "accepted" →
      Trade.status ⟨"t1", "A", "B", "s1", "s2", "pending", ["A"], ""⟩ = "accepted") ∧
    (("completed" : String) = "rejected" →
      Trade.status ⟨"t1", "A", "B", "s1", "s2", "pending", ["A"], ""⟩ = "rejected") ∧
    (("completed" : String) = "completed" →
      Trade.status ⟨"t1", "A", "B", "s1", "s2", "pending", ["A"], ""⟩ =
          Trade.status ⟨"t1", "A", "B", "s1", "s2", "pending", [], ""⟩ ∨
        Trade.status ⟨"t1", "A", "B", "s1", "s2", "pending", ["A"], ""⟩ = "completed") :=
  trade_status_invariants ⟨"t1", "A", "B", "s1", "s2", "pending", [], ""⟩ "A" "completed"
    ⟨"t1", "A", "B", "s1", "s2", "pending", ["A"], ""⟩
    [⟨"B", NOTIF_TRADE_MARKED_COMPLETE⟩] (by decide)

/-- C3: with all required ids present and no self-trade, `createTradeRequest`
fails with a 400-class conflict error and persists nothing when some stored
trade matches the exact (sender, receiver, senderSkill, receiverSkill) tuple
with status `pending`; when no stored trade matches that exact filter (a
different skill pairing, or the earlier trade has left `pending`), it succeeds
and appends a fresh pending trade to the store. -/
theorem create_duplicate_suppression (store : List Trade) (s r ss rs msg nid : String)
    (hr : r ≠ "") (hss : ss ≠ "") (hrs : rs ≠ "") (hsr : r ≠ s) :
    ((∃ t ∈ store, pendingDupFilter s r ss rs t = true) →
      ∃ e, createTradeRequest store s r ss rs msg nid = (.error e, store) ∧
        e.statusCode = 400 ∧ e.message = "A pending trade already exists") ∧
    ((∀ t ∈ store, pendingDupFilter s r ss rs t = false) →
      createTradeRequest store s r ss rs msg nid =
        (.ok (newTrade nid s r ss rs msg), store ++ [newTrade nid s r ss rs msg])) := by
  constructor
  · intro hdup
    have hfind : (store.find? (pendingDupFilter s r ss rs)).isSome := by
      rw [List.find?_isSome]
      obtain ⟨t, ht, hp⟩ := hdup
      exact ⟨t, ht, hp⟩
    obtain ⟨t0, ht0⟩ := Option.isSome_iff_exists.mp hfind
    refine ⟨⟨400, "A pending trade already exists"⟩, ?_, rfl, rfl⟩
    simp only [createTradeRequest, hr, hss, hrs, hsr, if_neg, or_self, or_false,
      if_false]
    rw [ht0]
  · intro hnone
    have hfind : store.find? (pendingDupFilter s r ss rs) = none :=
      List.find?_eq_none.mpr (fun t ht => by simp [hnone t ht])
    simp only [createTradeRequest]
    rw [if_neg (by simp [hr, hss, hrs]), if_neg hsr, hfind]

/-- Witness for C3: a duplicate pending trade between "A" and "B" on the same
skill pair is rejected, while the same create against a store whose only
trade has left `pending` succeeds. -/
theorem create_duplicate_suppression_witness :
    (("B" : String) ≠ "") ∧
    ((∃ t ∈ [(⟨"t1", "A", "B", "s1", "s2", "pending", [], ""⟩ : Trade)],
        pendingDupFilter "A" "B" "s1" "s2" t = true) →
      ∃ e, createTradeRequest [⟨"t1", "A", "B", "s1", "s2", "pending", [], ""⟩]
          "A" "B" "s1" "s2" "" "t2" =
        (.error e, [⟨"t1", "A", "B", "s1", "s2", "pending", [], ""⟩]) ∧
        e.statusCode = 400 ∧ e.message = "A pending trade already exists") ∧
    ((∀ t ∈ [(⟨"t1", "A", "B", "s1", "s2", "accepted", [], ""⟩ : Trade)],
        pendingDupFilter "A" "B" "s1" "s2" t = false) →
      createTradeRequest [⟨"t1", "A", "B", "s1", "s2", "accepted", [], ""⟩]
          "A" "B" "s1" "s2" "" "t2" =
        (.ok (newTrade "t2" "A" "B" "s1" "s2" ""),
         [⟨"t1", "A", "B", "s1", "s2", "accepted", [], ""⟩] ++
           [newTrade "t2" "A" "B" "s1" "s2" ""])) :=
  ⟨by decide,
   (create_duplicate_suppression [⟨"t1", "A", "B", "s1", "s2", "pending", [], ""⟩]
      "A" "B" "s1" "s2" "" "t2" (by decide) (by decide) (by decide) (by decide)).1,
   (create_duplicate_suppression [⟨"t1", "A", "B", "s1", "s2", "accepted", [], ""⟩]
      "A" "B" "s1" "s2" "" "t2" (by decide) (by decide) (by decide) (by decide)).2⟩

/-- C4: once a review exists for the (trade, reviewer, reviewee) triple, every
further `submitReview` call for that triple fails with a 400 `BadRequest`
error, whatever rating or text is supplied (and nothing further is persisted:
the stores are only returned on the `ok` path).  The hypotheses record that
the trade resolves and the reviewer is one of its participants, both of which
held when the existing review was created. -/
theorem review_exclusivity (st : ReviewSt) (tid rvr rve : String) (trade : Trade)
    (r0 : Review)
    (ht : st.trades.find? (fun t => t.id == tid) = some trade)
    (hpart : trade.sender = rvr ∨ trade.receiver = rvr)
    (hr0 : r0 ∈ st.reviews) (h1 : r0.tradeRequest = tid) (h2 : r0.reviewer = rvr)
    (h3 : r0.reviewee = rve) :
    ∀ rating text fb, ∃ e, submitReview st tid rvr rve rating text fb = .error e ∧
      e.statusCode = 400 := by
  intro rating text fb
  simp only [submitReview, ht]
  by_cases hv1 : rating = 0 ∨ text = "" ∨ rve = ""
  · rw [if_pos hv1]; exact ⟨_, rfl, rfl⟩
  · rw [if_neg hv1]
    by_cases hv2 : rating < 1 ∨ rating > 5
    · rw [if_pos hv2]; exact ⟨_, rfl, rfl⟩
    · rw [if_neg hv2]
      by_cases hv3 : (jsTrim text).length = 0 ∨ text.length > 500
      · rw [if_pos hv3]; exact ⟨_, rfl, rfl⟩
      · rw [if_neg hv3]
        by_cases hst : trade.status ≠ "completed"
        · rw [if_pos hst]; exact ⟨_, rfl, rfl⟩
        · rw [if_neg hst]
          have hpart' : (!(trade.sender == rvr) && !(trade.receiver == rvr)) = false := by
            rcases hpart with h | h <;> simp [h]
          rw [hpart']
          rw [if_neg (by simp)]
          by_cases hvv : ((trade.sender == rvr && trade.receiver == rve) ||
              (trade.receiver == rvr && trade.sender == rve)) = true
          · rw [if_neg (by simp [hvv])]
            have hfind : (st.reviews.find? (reviewTripleFilter tid rvr rve)).isSome := by
              rw [List.find?_isSome]
              exact ⟨r0, hr0, by simp [reviewTripleFilter, h1, h2, h3]⟩
            obtain ⟨r1, hr1⟩ := Option.isSome_iff_exists.mp hfind
            rw [hr1]
            exact ⟨_, rfl, rfl⟩
          · rw [if_pos (by simp [Bool.not_eq_true] at hvv ⊢; tauto)]
            exact ⟨_, rfl, rfl⟩

/-- Witness for C4: with a completed trade between "A" and "B" and an existing
review by "A" of "B" on it, any further submission by "A" (here with a
different rating and text) fails with a 400 error. -/
theorem review_exclusivity_witness :
    List.find? (fun t => t.id == "t1")
        [(⟨"t1", "A", "B", "s1", "s2", "completed", ["A", "B"], ""⟩ : Trade)] =
      some ⟨"t1", "A", "B", "s1", "s2", "completed", ["A", "B"], ""⟩ ∧
    (∀ rating text fb, ∃ e,
      submitReview ⟨[⟨"t1", "A", "B", "s1", "s2", "completed", ["A", "B"], ""⟩],
          [⟨"t1", "A", "B", 5, "great", "s2"⟩], []⟩ "t1" "A" "B" rating text fb =
        .error e ∧ e.statusCode = 400) :=
  ⟨by decide,
   review_exclusivity
     ⟨[⟨"t1", "A", "B", "s1", "s2", "completed", ["A", "B"], ""⟩],
      [⟨"t1", "A", "B", 5, "great", "s2"⟩], []⟩
     "t1" "A" "B" ⟨"t1", "A", "B", "s1", "s2", "completed", ["A", "B"], ""⟩
     ⟨"t1", "A", "B", 5, "great", "s2"⟩
     (by decide) (Or.inl rfl) (by simp) rfl rfl rfl⟩

/-- C5: for a trade with distinct participants, (i) a successful `submitReview`
implies the reviewer is a participant and the reviewee is exactly the other
participant, and the recorded `skillReviewed` is the receiver's offered skill
when the reviewer is the sender and the sender's offered skill otherwise;
(ii) a reviewer who is not a participant fails with 403 (once the input
validations pass and the trade is completed); (iii) a participant reviewer
naming any reviewee other than the other participant (themself or a third
party) fails with 400. -/
theorem review_pairing (st : ReviewSt) (tid rvr rve : String) (trade : Trade)
    (rating : ℚ) (text : String) (fb : Bool)
    (ht : st.trades.find? (fun t => t.id == tid) = some trade)
    (hne : trade.sender ≠ trade.receiver) :
    (∀ st' r, submitReview st tid rvr rve rating text fb = .ok (st', r) →
      ((trade.sender = rvr ∧ trade.receiver = rve) ∨
       (trade.receiver = rvr ∧ trade.sender = rve)) ∧
      r.skillReviewed = (if trade.sender == rvr then trade.receiverOfferedSkill
                         else trade.senderOfferedSkill)) ∧
    (trade.sender ≠ rvr → trade.receiver ≠ rvr → trade.status = "completed" →
      ¬(rating = 0 ∨ text = "" ∨ rve = "") → ¬(rating < 1 ∨ rating > 5) →
      ¬((jsTrim text).length = 0 ∨ text.length > 500) →
      ∃ e, submitReview st tid rvr rve rating text fb = .error e ∧
        e.statusCode = 403) ∧
    ((trade.sender = rvr ∨ trade.receiver = rvr) →
      rve ≠ (if trade.sender = rvr then trade.receiver else trade.sender) →
      trade.status = "completed" →
      ¬(rating = 0 ∨ text = "" ∨ rve = "") → ¬(rating < 1 ∨ rating > 5) →
      ¬((jsTrim text).length = 0 ∨ text.length > 500) →
      ∃ e, submitReview st tid rvr rve rating text fb = .error e ∧
        e.statusCode = 400) := by
  refine ⟨?_, ?_, ?_⟩
  · intro st' r hok
    simp only [submitReview, ht] at hok
    by_cases hv1 : rating = 0 ∨ text = "" ∨ rve = ""
    · rw [if_pos hv1] at hok; exact absurd hok (by simp)
    · rw [if_neg hv1] at hok
      by_cases hv2 : rating < 1 ∨ rating > 5
      · rw [if_pos hv2] at hok; exact absurd hok (by simp)
      · rw [if_neg hv2] at hok
        by_cases hv3 : (jsTrim text).length = 0 ∨ text.length > 500
        · rw [if_pos hv3] at hok; exact absurd hok (by simp)
        · rw [if_neg hv3] at hok
          by_cases hst : trade.status ≠ "completed"
          · rw [if_pos hst] at hok; exact absurd hok (by simp)
          · rw [if_neg hst] at hok
            by_cases hpart : (!(trade.sender == rvr) && !(trade.receiver == rvr)) = true
            · rw [if_pos hpart] at hok; exact absurd hok (by simp)
            · rw [if_neg hpart] at hok
              by_cases hvv : ((trade.sender == rvr && trade.receiver == rve) ||
                  (trade.receiver == rvr && trade.sender == rve)) = true
              · rw [if_neg (by simp [hvv])] at hok
                cases hfd : st.reviews.find? (reviewTripleFilter tid rvr rve) with
                | some r1 => rw [hfd] at hok; exact absurd hok (by simp)
                | none =>
                  rw [hfd] at hok
                  obtain ⟨hst', hr⟩ := Prod.mk.inj (Except.ok.inj hok)
                  refine ⟨?_, ?_⟩
                  · simpa only [Bool.or_eq_true, Bool.and_eq_true, beq_iff_eq] using hvv
                  · rw [← hr]
              · rw [if_pos (by simp [Bool.not_eq_true] at hvv ⊢; tauto)] at hok
                exact absurd hok (by simp)
  · intro hs hr hst hv1 hv2 hv3
    simp only [submitReview, ht]
    rw [if_neg hv1, if_neg hv2, if_neg hv3, if_neg (not_not_intro hst),
      if_pos (by simp [hs, hr])]
    exact ⟨_, rfl, rfl⟩
  · intro hp hwrong hst hv1 hv2 hv3
    simp only [submitReview, ht]
    rw [if_neg hv1, if_neg hv2, if_neg hv3, if_neg (not_not_intro hst)]
    rcases hp with hp | hp
    · have hrv : trade.receiver ≠ rvr := fun hh => hne (hp.trans hh.symm)
      rw [if_pos hp] at hwrong
      rw [if_neg (by simp [hp, hrv]),
        if_pos (by simp [hrv]; exact Or.inr fun hh => hwrong hh.symm)]
      exact ⟨_, rfl, rfl⟩
    · have hsv : trade.sender ≠ rvr := fun hh => hne (hh.trans hp.symm)
      rw [if_neg hsv] at hwrong
      rw [if_neg (by simp [hp, hsv]),
        if_pos (by simp [hsv]; exact Or.inr fun hh => hwrong hh.symm)]
      exact ⟨_, rfl, rfl⟩

/-- Witness for C5 at a completed trade between "A" (sender, offering "s1")
and "B" (receiver, offering "s2"): the successful review by "A" of "B" records
`skillReviewed = "s2"`, outsider "C" gets 403, and a self-review by "A" gets
400. -/
theorem review_pairing_witness :
    ((("A" : String) = "A" ∧ ("B" : String) = "B") ∨
      (("B" : String) = "A" ∧ ("A" : String) = "B")) ∧
    (⟨"t1", "A", "B", 5, "great", "s2"⟩ : Review).skillReviewed =
      (if ("A" : String) == "A" then "s2" else "s1") ∧
    (∃ e, submitReview ⟨[⟨"t1", "A", "B", "s1", "s2", "completed", ["A", "B"], ""⟩],
        [], []⟩ "t1" "C" "B" 5 "great" false = .error e ∧ e.statusCode = 403) ∧
    (∃ e, submitReview ⟨[⟨"t1", "A", "B", "s1", "s2", "completed", ["A", "B"], ""⟩],
        [], []⟩ "t1" "A" "A" 5 "great" false = .error e ∧ e.statusCode = 400) := by
  have h1 := (review_pairing
    ⟨[⟨"t1", "A", "B", "s1", "s2", "completed", ["A", "B"], ""⟩], [], []⟩
    "t1" "A" "B" ⟨"t1", "A", "B", "s1", "s2", "completed", ["A", "B"], ""⟩
    5 "great" false (by decide) (by decide)).1
    ⟨[⟨"t1", "A", "B", "s1", "s2", "completed", ["A", "B"], ""⟩],
      [⟨"t1", "A", "B", 5, "great", "s2"⟩], []⟩
    ⟨"t1", "A", "B", 5, "great", "s2"⟩ (by decide)
  have h2 := (review_pairing
    ⟨[⟨"t1", "A", "B", "s1", "s2", "completed", ["A", "B"], ""⟩], [], []⟩
    "t1" "C" "B" ⟨"t1", "A", "B", "s1", "s2", "completed", ["A", "B"], ""⟩
    5 "great" false (by decide) (by decide)).2.1
    (by decide) (by decide) (by decide) (by decide) (by decide) (by decide)
  have h3 := (review_pairing
    ⟨[⟨"t1", "A", "B", "s1", "s2", "completed", ["A", "B"], ""⟩], [], []⟩
    "t1" "A" "A" ⟨"t1", "A", "B", "s1", "s2", "completed", ["A", "B"], ""⟩
    5 "great" false (by decide) (by decide)).2.2
    (Or.inl rfl) (by decide) (by decide) (by decide) (by decide) (by decide)
  exact ⟨h1.1, h1.2, h2, h3⟩

/-- Updating the rating of the first matching profile commutes with looking
that profile up. -/
theorem find?_setProfileRating (ps : List SkillProfile) (uid : String) (v : ℚ) :
    (setProfileRating ps uid v).find? (fun p => p.userId == uid) =
      (ps.find? (fun p => p.userId == uid)).map (fun p0 => { p0 with rating := v }) := by
  induction ps with
  | nil => rfl
  | cons p ps ih =>
    by_cases hp : p.userId = uid
    · rw [setProfileRating, if_pos hp]
      rw [List.find?_cons_of_pos _ (by simp [hp]), List.find?_cons_of_pos _ (by simp [hp])]
      rfl
    · rw [setProfileRating, if_neg hp]
      rw [List.find?_cons_of_neg _ (by simp [hp]), List.find?_cons_of_neg _ (by simp [hp]),
        ih]

/-- C6 (code bug): at the failing input — reviewee "B" holding stored
ratings [5, 4] plus the incoming rating 3, with an existing profile record at
rating 7 — the recomputation overwrites the profile rating with 0, although
the rounded mean of the reviewee ratings is 4.0 as the claim states: the
uncast `$match` string never equals the ObjectId `reviewee` field, so the
aggregation averages zero matches and the `|| 0` default is written.  The
failure-swallowing half of the claim does hold: with the recomputation step
throwing, the review is still created identically and the profile is left
untouched. -/
theorem review_rating_aggregate_bug :
    submitReview ⟨[⟨"t1", "A", "B", "s1", "s2", "completed", ["A", "B"], ""⟩],
        [⟨"t0", "A", "B", 5, "x", "s9"⟩, ⟨"t2", "C", "B", 4, "y", "s8"⟩],
        [⟨"B", 7⟩]⟩ "t1" "A" "B" 3 "good" false =
      .ok (⟨[⟨"t1", "A", "B", "s1", "s2", "completed", ["A", "B"], ""⟩],
        [⟨"t0", "A", "B", 5, "x", "s9"⟩, ⟨"t2", "C", "B", 4, "y", "s8"⟩,
         ⟨"t1", "A", "B", 3, "good", "s2"⟩],
        [⟨"B", 0⟩]⟩, ⟨"t1", "A", "B", 3, "good", "s2"⟩) ∧
    roundTenth ((5 + 4 + 3 : ℚ) / 3) = 4 ∧
    profileRatingOf [(⟨"B", 0⟩ : SkillProfile)] "B" = some 0 ∧
    (0 : ℚ) ≠ 4 ∧
    submitReview ⟨[⟨"t1", "A", "B", "s1", "s2", "completed", ["A", "B"], ""⟩],
        [⟨"t0", "A", "B", 5, "x", "s9"⟩, ⟨"t2", "C", "B", 4, "y", "s8"⟩],
        [⟨"B", 7⟩]⟩ "t1" "A" "B" 3 "good" true =
      .ok (⟨[⟨"t1", "A", "B", "s1", "s2", "completed", ["A", "B"], ""⟩],
        [⟨"t0", "A", "B", 5, "x", "s9"⟩, ⟨"t2", "C", "B", 4, "y", "s8"⟩,
         ⟨"t1", "A", "B", 3, "good", "s2"⟩],
        [⟨"B", 7⟩]⟩, ⟨"t1", "A", "B", 3, "good", "s2"⟩) := by
  refine ⟨by decide, by decide, by decide, by decide, by decide⟩

/-- C7 counterexample.  The claim fails in both directions: (i) `longText` has
trimmed length 500 ∈ [1,500], yet `submitReview` rejects it with a 400 error
because the source checks `review.length > 500` on the UNTRIMMED text
(length 501); (ii) the non-integer rating 5/2 (not an "integer in [1,5]") is
accepted — no integrality check exists.  The store holds a completed trade
between "A" and "B" so every later check would pass. -/
theorem review_validation_cex :
    longText.length = 501 ∧ (jsTrim longText).length = 500 ∧
    submitReview ⟨[⟨"t1", "A", "B", "s1", "s2", "completed", ["A", "B"], ""⟩], [], []⟩
        "t1" "A" "B" 3 longText false =
      .error ⟨400, "Review must be between 1 and 500 characters"⟩ ∧
    (5 / 2 : ℚ).den = 2 ∧
    (submitReview ⟨[⟨"t1", "A", "B", "s1", "s2", "completed", ["A", "B"], ""⟩], [], []⟩
        "t1" "A" "B" (5 / 2) "nice" false).isOk = true := by
  refine ⟨by decide, by decide, by decide, by decide, by decide⟩

/-- C7 amended: with the store-level checks satisfiable (trade found and
completed, reviewer = sender, reviewee = receiver, no duplicate review),
`submitReview` succeeds exactly when the rating is a number in [1,5]
(integrality is NOT enforced), the trimmed text is nonempty, and the
UNTRIMMED text length is at most 500; every input violating these ranges
fails with a 400 `BadRequest`. -/
theorem review_validation_amended (st : ReviewSt) (tid rvr rve : String)
    (trade : Trade) (rating : ℚ) (text : String)
    (ht : st.trades.find? (fun t => t.id == tid) = some trade)
    (hc : trade.status = "completed")
    (hs : trade.sender = rvr) (hrv : trade.receiver = rve)
    (hdup : st.reviews.find? (reviewTripleFilter tid rvr rve) = none)
    (hrve : rve ≠ "") :
    ((submitReview st tid rvr rve rating text false).isOk = true ↔
      (1 ≤ rating ∧ rating ≤ 5 ∧ 1 ≤ (jsTrim text).length ∧ text.length ≤ 500)) ∧
    (¬(1 ≤ rating ∧ rating ≤ 5 ∧ 1 ≤ (jsTrim text).length ∧ text.length ≤ 500) →
      ∃ e, submitReview st tid rvr rve rating text false = .error e ∧
        e.statusCode = 400) := by
  constructor
  · constructor
    · intro hok
      simp only [submitReview, ht] at hok
      by_cases hv1 : rating = 0 ∨ text = "" ∨ rve = ""
      · rw [if_pos hv1] at hok; exact absurd hok (by decide)
      · rw [if_neg hv1] at hok
        by_cases hv2 : rating < 1 ∨ rating > 5
        · rw [if_pos hv2] at hok; exact absurd hok (by decide)
        · rw [if_neg hv2] at hok
          by_cases hv3 : (jsTrim text).length = 0 ∨ text.length > 500
          · rw [if_pos hv3] at hok; exact absurd hok (by decide)
          · push_neg at hv2 hv3
            exact ⟨hv2.1, hv2.2, Nat.one_le_iff_ne_zero.mpr hv3.1, hv3.2⟩
    · intro ⟨h1, h2, h3, h4⟩
      have hv1 : ¬(rating = 0 ∨ text = "" ∨ rve = "") := by
        push_neg
        refine ⟨by intro hh; rw [hh] at h1; exact absurd h1 (by norm_num), ?_, hrve⟩
        intro hh
        rw [hh] at h3
        exact absurd h3 (by decide)
      have hv2 : ¬(rating < 1 ∨ rating > 5) := by
        push_neg; exact ⟨h1, h2⟩
      have hv3 : ¬((jsTrim text).length = 0 ∨ text.length > 500) := by
        push_neg; exact ⟨Nat.one_le_iff_ne_zero.mp h3, h4⟩
      simp only [submitReview, ht]
      rw [if_neg hv1, if_neg hv2, if_neg hv3, if_neg (not_not_intro hc),
        if_neg (by simp [hs]), if_neg (by simp [hs, hrv]), hdup]
      rfl
  · intro hnc
    by_cases hv1 : rating = 0 ∨ text = "" ∨ rve = ""
    · simp only [submitReview]
      rw [if_pos hv1]
      exact ⟨_, rfl, rfl⟩
    · by_cases hv2 : rating < 1 ∨ rating > 5
      · simp only [submitReview]
        rw [if_neg hv1, if_pos hv2]
        exact ⟨_, rfl, rfl⟩
      · by_cases hv3 : (jsTrim text).length = 0 ∨ text.length > 500
        · simp only [submitReview]
          rw [if_neg hv1, if_neg hv2, if_pos hv3]
          exact ⟨_, rfl, rfl⟩
        · exfalso
          apply hnc
          push_neg at hv2 hv3
          exact ⟨hv2.1, hv2.2, Nat.one_le_iff_ne_zero.mpr hv3.1, hv3.2⟩

/-- Witness for the amended C7 theorem at a concrete completed trade. -/
theorem review_validation_amended_witness :
    (((submitReview ⟨[⟨"t1", "A", "B", "s1", "s2", "completed", ["A", "B"], ""⟩], [], []⟩
        "t1" "A" "B" 3 "ok" false).isOk = true ↔
      (1 ≤ (3 : ℚ) ∧ (3 : ℚ) ≤ 5 ∧ 1 ≤ (jsTrim "ok").length ∧ "ok".length ≤ 500)) ∧
     (¬(1 ≤ (3 : ℚ) ∧ (3 : ℚ) ≤ 5 ∧ 1 ≤ (jsTrim "ok").length ∧ "ok".length ≤ 500) →
      ∃ e, submitReview ⟨[⟨"t1", "A", "B", "s1", "s2", "completed", ["A", "B"], ""⟩],
          [], []⟩ "t1" "A" "B" 3 "ok" false = .error e ∧ e.statusCode = 400)) :=
  review_validation_amended
    ⟨[⟨"t1", "A", "B", "s1", "s2", "completed", ["A", "B"], ""⟩], [], []⟩
    "t1" "A" "B" ⟨"t1", "A", "B", "s1", "s2", "completed", ["A", "B"], ""⟩
    3 "ok" (by decide) rfl rfl rfl (by decide) (by decide)

/-- C8: `getChatHistory store t u` returns a list that is a permutation of
exactly the messages of that trade, sorted oldest-first by `createdAt`; and in the
updated store, position by position, a message becomes `read = true` exactly
when it belongs to trade `t` and is addressed to `u` (or was already read),
all other fields are preserved, and every message not matching the update
filter is completely unchanged. -/
theorem chat_read_marking (store : List Message) (t u : String) :
    (getChatHistory store t u).1.Perm (store.filter (fun m => m.tradeId == t)) ∧
    (getChatHistory store t u).1.Pairwise (fun a b => a.createdAt ≤ b.createdAt) ∧
    List.Forall₂ (fun m m2 =>
      (m2.read = true ↔ (m.tradeId = t ∧ m.receiver = u) ∨ m.read = true) ∧
      m2.id = m.id ∧ m2.sender = m.sender ∧ m2.receiver = m.receiver ∧
      m2.tradeId = m.tradeId ∧ m2.message = m.message ∧ m2.createdAt = m.createdAt ∧
      (¬(m.tradeId = t ∧ m.receiver = u) → m2 = m))
      store (getChatHistory store t u).2 := by
  refine ⟨List.mergeSort_perm _ _, ?_, ?_⟩
  · refine List.Pairwise.imp ?_
      (@List.sorted_mergeSort Message (fun a b => decide (a.createdAt ≤ b.createdAt))
        ?_ ?_ (store.filter (fun m => m.tradeId == t)))
    · intro a b h
      simpa using h
    · intro a b c hab hbc
      simp at hab hbc ⊢
      omega
    · intro a b
      simp
      omega
  · rw [show (getChatHistory store t u).2 = store.map (fun m =>
      if m.tradeId == t && m.receiver == u && m.read == false then
        { m with read := true }
      else m) from rfl]
    rw [List.forall₂_map_right_iff, List.forall₂_same]
    intro m hm
    by_cases h1 : m.tradeId = t <;> by_cases h2 : m.receiver = u <;>
      cases hr : m.read <;> simp [h1, h2, hr]

/-- C9: a `chat:send` with a joined sender, all fields present and nonempty
trimmed text persists the message with `read = false` unconditionally (before
and independently of any delivery attempt), always echoes `chat:sent` to the
sender socket; and when the receiver is absent from the registry no
`chat:receive` delivery happens — the emitted events are exactly the sender
echo — yet the message is retrievable via `getChatHistory` afterwards, still
with `read = false`. -/
theorem chat_persistence (reg : Registry) (store : List Message) (c : Conn)
    (senderId receiverId msgText tradeId newId : String) (now : Nat)
    (hc : c.userId = some senderId) (hs : senderId ≠ "") (hr : receiverId ≠ "")
    (ht : tradeId ≠ "") (hm : jsTrim msgText ≠ "") :
    (chatSend reg store c receiverId msgText tradeId newId now).1 =
      store ++ [⟨newId, senderId, receiverId, tradeId, jsTrim msgText, false, now⟩] ∧
    (⟨newId, senderId, receiverId, tradeId, jsTrim msgText, false, now⟩ : Message).read
      = false ∧
    (⟨c.id, "chat:sent"⟩ : EmitEvt) ∈
      (chatSend reg store c receiverId msgText tradeId newId now).2 ∧
    (getUserSocketId reg receiverId = none →
      (chatSend reg store c receiverId msgText tradeId newId now).2 =
        [⟨c.id, "chat:sent"⟩] ∧
      (⟨newId, senderId, receiverId, tradeId, jsTrim msgText, false, now⟩ : Message) ∈
        (getChatHistory (chatSend reg store c receiverId msgText tradeId newId now).1
          tradeId receiverId).1) := by
  have hmne : msgText ≠ "" := fun hh => hm (by rw [hh]; rfl)
  simp only [chatSend, hc]
  rw [if_neg (by simp [hs, hr, ht, hmne]), if_neg hm]
  cases hlook : getUserSocketId reg receiverId with
  | some rsid =>
    refine ⟨rfl, trivial, ?_, ?_⟩
    · simp
    · intro habs
      exact absurd habs (by simp)
  | none =>
    refine ⟨rfl, trivial, ?_, fun _ => ⟨rfl, ?_⟩⟩
    · simp
    · simp [getChatHistory, List.mem_filter]

/-- Witness for C9: sender "A" on socket "c1" sends to an absent receiver "B"
over an empty registry; the message is persisted and later readable with
`read = false`. -/
theorem chat_persistence_witness :
    (Conn.userId ⟨"c1", some "A"⟩ = some "A") ∧
    ((chatSend (fun _ => none) [] ⟨"c1", some "A"⟩ "B" " hi " "t1" "m1" 5).1 =
      [] ++ [⟨"m1", "A", "B", "t1", jsTrim " hi ", false, 5⟩] ∧
    (⟨"m1", "A", "B", "t1", jsTrim " hi ", false, 5⟩ : Message).read = false ∧
    (⟨"c1", "chat:sent"⟩ : EmitEvt) ∈
      (chatSend (fun _ => none) [] ⟨"c1", some "A"⟩ "B" " hi " "t1" "m1" 5).2 ∧
    (getUserSocketId (fun _ => none) "B" = none →
      (chatSend (fun _ => none) [] ⟨"c1", some "A"⟩ "B" " hi " "t1" "m1" 5).2 =
        [⟨"c1", "chat:sent"⟩] ∧
      (⟨"m1", "A", "B", "t1", jsTrim " hi ", false, 5⟩ : Message) ∈
        (getChatHistory
          (chatSend (fun _ => none) [] ⟨"c1", some "A"⟩ "B" " hi " "t1" "m1" 5).1
          "t1" "B").1)) :=
  ⟨rfl, chat_persistence (fun _ => none) [] ⟨"c1", some "A"⟩ "A" "B" " hi " "t1" "m1" 5
    rfl (by decide) (by decide) (by decide) (by decide)⟩

/-- C10: after `join(u)` on connection c1, `join(u)` on connection c2
(last-writer-wins overwrite), and then the disconnect of the stale connection
c1, the registry has no entry for `u` — disconnect deletes by the stored
userId without checking that the entry still points at that socket — so a
subsequent dispatch to `u` reports not delivered even though c2 is still
open. -/
theorem stale_disconnect_drops_presence (reg : Registry) (ioReady : Bool)
    (u c1id c2id : String) (hu : u ≠ "") :
    (onDisconnect (userJoin (userJoin reg ⟨c1id, none⟩ u).1 ⟨c2id, none⟩ u).1
        (userJoin reg ⟨c1id, none⟩ u).2) u = none ∧
    sendNotificationToUser
      (onDisconnect (userJoin (userJoin reg ⟨c1id, none⟩ u).1 ⟨c2id, none⟩ u).1
        (userJoin reg ⟨c1id, none⟩ u).2) ioReady u = false := by
  simp only [userJoin, if_neg hu, onDisconnect, regDelete, regSet,
    sendNotificationToUser, getUserSocketId]
  simp

/-- Witness for C10 with user "alice" joining from "c1" then "c2". -/
theorem stale_disconnect_drops_presence_witness :
    ("alice" : String) ≠ "" ∧
    ((onDisconnect
        (userJoin (userJoin (fun _ => none) ⟨"c1", none⟩ "alice").1
          ⟨"c2", none⟩ "alice").1
        (userJoin (fun _ => none) ⟨"c1", none⟩ "alice").2) "alice" = none ∧
    sendNotificationToUser
      (onDisconnect
        (userJoin (userJoin (fun _ => none) ⟨"c1", none⟩ "alice").1
          ⟨"c2", none⟩ "alice").1
        (userJoin (fun _ => none) ⟨"c1", none⟩ "alice").2) true "alice" = false) :=
  ⟨by decide,
   stale_disconnect_drops_presence (fun _ => none) true "alice" "c1" "c2" (by decide)⟩

end

end SNChat
